import Mathlib

/-!
Verification of the castle-breaker physics core (GameCanvas component).

The definitions below are a shallow embedding of the game's physics/gameplay
logic over exact rational arithmetic: every JavaScript number is modelled as a
rational (all numeric literals used by the embedded code — 0.375, 0.5, 0.01,
0.1, 1.0 — denote the same values as the corresponding binary doubles, except
0.01, whose double is within 2e-19 of 1/100; no claim depends on that gap).
Quantities produced by the physics engine itself (post-step body positions,
orientations, velocities, sleep states, and the random unit spread directions
of cluster submunitions) are inputs to the embedded per-frame logic, so they
appear as explicit parameters ("observations" / direction oracles).  Square
roots are irrational in general, so wherever the source calls length() the
embedding takes the length as a parameter constrained by the hypothesis
d ≥ 0 ∧ d * d = lengthSquared v, which pins it to the unique real value.
-/

set_option maxHeartbeats 1000000

namespace CastleBreaker

/-! ### Vectors and quaternions (cannon-es Vec3 / Quaternion over ℚ) -/

/-- cannon-es Vec3 with exact rational components. -/
structure Vec3 where
  x : ℚ
  y : ℚ
  z : ℚ
deriving DecidableEq, Repr

def Vec3.zero : Vec3 := ⟨0, 0, 0⟩

/-- cannon-es Vec3.vadd. -/
def Vec3.vadd (a b : Vec3) : Vec3 := ⟨a.x + b.x, a.y + b.y, a.z + b.z⟩

/-- cannon-es Vec3.vsub. -/
def Vec3.vsub (a b : Vec3) : Vec3 := ⟨a.x - b.x, a.y - b.y, a.z - b.z⟩

/-- cannon-es Vec3.scale. -/
def Vec3.scale (k : ℚ) (v : Vec3) : Vec3 := ⟨k * v.x, k * v.y, k * v.z⟩

/-- cannon-es Vec3.lengthSquared. -/
def Vec3.lengthSquared (v : Vec3) : ℚ := v.x * v.x + v.y * v.y + v.z * v.z

/-- cannon-es Quaternion with exact rational components. -/
structure Quat where
  x : ℚ
  y : ℚ
  z : ℚ
  w : ℚ
deriving DecidableEq, Repr

/-- cannon-es Quaternion.vmult (rotate vector v by quaternion q), the exact
arithmetic of the library routine: t = q * v as a pure quaternion product,
then t * conjugate(q). -/
def Quat.vmult (q : Quat) (v : Vec3) : Vec3 :=
  let ix := q.w * v.x + q.y * v.z - q.z * v.y
  let iy := q.w * v.y + q.z * v.x - q.x * v.z
  let iz := q.w * v.z + q.x * v.y - q.y * v.x
  let iw := -q.x * v.x - q.y * v.y - q.z * v.z
  ⟨ix * q.w + iw * (-q.x) + iy * (-q.z) - iz * (-q.y),
   iy * q.w + iw * (-q.y) + iz * (-q.x) - ix * (-q.z),
   iz * q.w + iw * (-q.z) + ix * (-q.y) - iy * (-q.x)⟩

/-- Identity orientation: the default quaternion of a fresh CANNON.Body. -/
def Quat.identity : Quat := ⟨0, 0, 0, 1⟩

/-! ### Constants (src/constants.ts) -/

def BLOCK_SIZE : ℚ := 1
def BLOCK_MASS : ℚ := 0.5
def MAX_CHARGE_DURATION_MS : ℚ := 1500
def MIN_LAUNCH_POWER : ℚ := 0.1
def MAX_LAUNCH_POWER : ℚ := 1.0
def EXPLOSION_RADIUS : ℚ := 3.5
def EXPLOSION_STRENGTH : ℚ := 3.6
def CLUSTER_SPLIT_DELAY_MS : ℚ := 1000
def SUBMUNITION_COUNT : Nat := 5
def SUBMUNITION_MASS : ℚ := 2
def SUBMUNITION_SPREAD_IMPULSE : ℚ := 3
def SUBMUNITION_LIFESPAN_MS : ℚ := 5000

/-! ### Shapes and bodies -/

/-- BlockShape (src/types.ts): 'cube' | 'cylinder' | 'sphere' | 'cube_2x1x1' | 'cube_3x1x1'. -/
inductive BlockShape
  | cube
  | cylinder
  | sphere
  | cube_2x1x1
  | cube_3x1x1
deriving DecidableEq, Repr

/-- Shape.types.SPHERE in cannon-es; also the fallback the component uses when
it cannot probe a fresh CANNON.Sphere, so sphereShapeTypeNumber = 1 always. -/
def sphereShapeTypeNumber : Nat := 1

/-- The cannon-es shape-type tag of the collision shape built by
createBlockVisualAndPhysics's switch: 'sphere' builds a CANNON.Sphere
(tag SPHERE = 1), 'cylinder' builds a CANNON.Cylinder (a ConvexPolyhedron
subclass; its tag is not SPHERE, which is all the fall-detection compares),
and every cube variant builds a CANNON.Box (tag BOX = 4). -/
def cannonShapeTypeNumber : BlockShape → Nat
  | BlockShape.sphere => 1
  | BlockShape.cylinder => 16
  | _ => 4

/-- The observable state of one CANNON.Body that the per-frame gameplay logic
reads: position, orientation, velocity, whether sleepState = SLEEPING, and the
shape-type tag of shapes[0].  The physics step mutates the first four fields;
the embedding receives the post-step values as observations. -/
structure Body where
  position : Vec3
  quaternion : Quat
  velocity : Vec3
  sleeping : Bool
  shapeType : Nat
deriving DecidableEq, Repr

/-- ProjectileType (src/types.ts). -/
inductive ProjectileType
  | STANDARD
  | HEAVY
  | EXPLOSIVE
  | CLUSTER
deriving DecidableEq, Repr

/-- PhysicsObject (src/types.ts), minus the mesh (purely visual).  The
optional boolean fields isKing / hasSplit / isSubmunition are stored as their
JavaScript truthiness (undefined coerces to false everywhere they are read),
and the optional numeric fields lifeSpan / creationTime as Option ℚ. -/
structure PhysicsObject where
  body : Body
  id : String
  isKing : Bool
  initialY : ℚ
  isFallen : Bool
  projectileType : Option ProjectileType
  lifeSpan : Option ℚ
  creationTime : Option ℚ
  hasSplit : Bool
  isSubmunition : Bool
deriving DecidableEq, Repr

/-! ### Structure creation (createBlockVisualAndPhysics / createStructure) -/

/-- BlockConfig (src/types.ts); shape, isKing and color are optional. -/
structure BlockConfig where
  id : String
  x : ℚ
  y : ℚ
  z : ℚ
  shape : Option BlockShape
  isKing : Option Bool
  color : Option Nat
deriving DecidableEq, Repr

/-- createBlockVisualAndPhysics: builds the paired entity for one block.
`blockConf.shape || 'cube'` is Option.getD (the shape strings are non-empty,
so JS truthiness coincides with presence), `!!blockConf.isKing` is
Option.getD false, and a fresh body starts at the block's configured center
with identity orientation, zero velocity, awake. -/
def createBlockVisualAndPhysics (c : BlockConfig) : PhysicsObject :=
  let shapeType : BlockShape := c.shape.getD BlockShape.cube
  { body := { position := ⟨c.x, c.y, c.z⟩
              quaternion := Quat.identity
              velocity := Vec3.zero
              sleeping := false
              shapeType := cannonShapeTypeNumber shapeType }
    id := c.id
    isKing := c.isKing.getD false
    initialY := c.y
    isFallen := false
    projectileType := none
    lifeSpan := none
    creationTime := none
    hasSplit := false
    isSubmunition := false }

/-- createStructure: one entity per block of the level's structure list. -/
def createStructure (structure_ : List BlockConfig) : List PhysicsObject :=
  structure_.map createBlockVisualAndPhysics

/-! ### Per-frame fall detection (animate, lines 302-322) -/

/-- The event delivered through onBlockFallen(obj.id, !!obj.isKing). -/
structure FallEvent where
  blockId : String
  isKing : Bool
deriving DecidableEq, Repr

/-- The fall condition tested each frame for a not-yet-fallen block, on the
post-step body state o:
hasDroppedSignificantly = position.y < initialY - BLOCK_SIZE * 0.375;
isSignificantlyTilted = (quaternion.vmult (0,1,0)).y < 0.5;
isSphere = shapes[0].type = sphereShapeTypeNumber;
fall when hasDroppedSignificantly || (!isSphere && isSignificantlyTilted). -/
def fallCondition (obj : PhysicsObject) (o : Body) : Bool :=
  let hasDroppedSignificantly := decide (o.position.y < obj.initialY - BLOCK_SIZE * 0.375)
  let bodyUpDirection := o.quaternion.vmult ⟨0, 1, 0⟩
  let isSignificantlyTilted := decide (bodyUpDirection.y < 0.5)
  let isSphere := decide (o.shapeType = sphereShapeTypeNumber)
  hasDroppedSignificantly || (!isSphere && isSignificantlyTilted)

/-- One block's update in the animate loop's forEach: sync the stored body to
the post-step state o; if the block is not yet fallen and the fall condition
holds, set isFallen and emit one onBlockFallen event. -/
def fallStep (obj : PhysicsObject) (o : Body) : PhysicsObject × List FallEvent :=
  let obj' := { obj with body := o }
  if obj.isFallen then (obj', [])
  else if fallCondition obj o then
    ({ obj' with isFallen := true }, [{ blockId := obj.id, isKing := obj.isKing }])
  else (obj', [])

/-- A session trace for one block: fold fallStep over the per-frame body
observations, concatenating the emitted events in order. -/
def runTrace (obj : PhysicsObject) : List Body → PhysicsObject × List FallEvent
  | [] => (obj, [])
  | o :: rest =>
    let r1 := fallStep obj o
    let r2 := runTrace r1.1 rest
    (r2.1, r1.2 ++ r2.2)

/-- fallStep applied to each block of the list in order, block number k
against its own post-step body state obs k. -/
def fallAll (obs : Nat → Body) (k : Nat) :
    List PhysicsObject → List (PhysicsObject × List FallEvent)
  | [] => []
  | obj :: rest => fallStep obj (obs k) :: fallAll obs (k + 1) rest

/-- One whole frame of fall detection over the structure list (the forEach in
animate): every block updated, the emitted events concatenated in order. -/
def blockFrame (obs : Nat → Body) (objs : List PhysicsObject) :
    List PhysicsObject × List FallEvent :=
  let stepped := fallAll obs 0 objs
  (stepped.map Prod.fst, stepped.flatMap Prod.snd)

/-- A multi-frame session over the structure list. -/
def runFrames : List (Nat → Body) → List PhysicsObject → List PhysicsObject × List FallEvent
  | [], objs => (objs, [])
  | o :: rest, objs =>
    let r1 := blockFrame o objs
    let r2 := runFrames rest r1.1
    (r2.1, r1.2 ++ r2.2)

/-- getGoldenBlockPosition (lines 736-742): first entity with
isKing && !isFallen && body (a body is always present), reporting its body's
current position; null when none qualifies. -/
def getGoldenBlockPosition (objs : List PhysicsObject) : Option Vec3 :=
  (objs.find? (fun obj => obj.isKing && !obj.isFallen)).map
    (fun goldenBlock => goldenBlock.body.position)

/-! ### Charge power curve (chargeUpdateLoop, lines 441-454, and
handlePointerUpGlobal, lines 484-509) -/

/-- JavaScript's % (fmod) on the operands this code feeds it: the dividend
elapsedTime / MAX_CHARGE_DURATION_MS is nonnegative and the divisor
MAX_LAUNCH_POWER is positive, and on such operands fmod coincides with
floor-mod. -/
def jsMod (x y : ℚ) : ℚ := x - y * (⌊x / y⌋ : ℤ)

/-- The power reported by chargeUpdateLoop after elapsedMs of holding:
rawPower = elapsedTime / MAX_CHARGE_DURATION_MS;
displayPower = rawPower % MAX_LAUNCH_POWER, replaced by MAX_LAUNCH_POWER when
it is exactly 0 while rawPower > 0.  handlePointerUpGlobal computes the same
value as effectiveFinalPower. -/
def chargeDisplayPower (elapsedMs : ℚ) : ℚ :=
  let rawPower := elapsedMs / MAX_CHARGE_DURATION_MS
  let displayPower := jsMod rawPower MAX_LAUNCH_POWER
  if displayPower = 0 ∧ 0 < rawPower then MAX_LAUNCH_POWER else displayPower

/-- finalLaunchPower = Math.max(MIN_LAUNCH_POWER, effectiveFinalPower)
(handlePointerUpGlobal, line 500). -/
def finalLaunchPower (elapsedMs : ℚ) : ℚ :=
  max MIN_LAUNCH_POWER (chargeDisplayPower elapsedMs)

/-! ### Explosion impulse (handleExplosion, lines 270-287) -/

/-- The impulse vector handleExplosion builds for one body whose stored
position is bpos: distVec = bpos - center, normalized (cannon-es normalize
leaves the zero vector unchanged when its length is 0), then scaled by
explosionStrength * max 0 (1 - distance/explosionRadius).  d is the value of
distVec.length(), supplied as a parameter because square roots are irrational;
theorems constrain it by 0 ≤ d ∧ d * d = distVec.lengthSquared. -/
def explosionImpulse (center : Vec3) (explosionRadius explosionStrength d : ℚ)
    (bpos : Vec3) : Vec3 :=
  let distVec := bpos.vsub center
  let unitDir := if 0 < d then Vec3.scale (1 / d) distVec else Vec3.zero
  Vec3.scale (explosionStrength * max 0 (1 - d / explosionRadius)) unitDir

/-- One body's update inside handleExplosion's forEach: bodies strictly within
explosionRadius get applyImpulse (linear effect: velocity += invMass * impulse;
the torque contribution of applyImpulse is not read by any claim) and are
woken when sleeping; bodies at distance ≥ explosionRadius are untouched. -/
def explodeBody (center : Vec3) (explosionRadius explosionStrength d : ℚ)
    (invMass : ℚ) (obj : PhysicsObject) : PhysicsObject :=
  if d < explosionRadius then
    { obj with body :=
        { obj.body with
          velocity := obj.body.velocity.vadd
            (Vec3.scale invMass
              (explosionImpulse center explosionRadius explosionStrength d obj.body.position))
          sleeping := false } }
  else obj

/-- handleExplosion over the whole world: the forEach runs over
physicsObjectsRef.current (the structure blocks) ONLY — projectilesRef is
never iterated, so projectile bodies are returned unchanged.  dist is the
length oracle for the per-block distVec (constrained in theorems), and every
block carries the uniform invMass 1 / BLOCK_MASS. -/
def handleExplosion (dist : Vec3 → ℚ) (center : Vec3)
    (explosionRadius explosionStrength : ℚ)
    (physicsObjects projectiles : List PhysicsObject) :
    List PhysicsObject × List PhysicsObject :=
  (physicsObjects.map (fun obj =>
      explodeBody center explosionRadius explosionStrength
        (dist (obj.body.position.vsub center)) (1 / BLOCK_MASS) obj),
   projectiles)

/-! ### Projectile lifecycle sweep (animate, lines 324-406) -/

/-- JS truthiness of an optional number (`if (proj.lifeSpan && proj.creationTime)`):
present and nonzero. -/
def numTruthy : Option ℚ → Bool
  | none => false
  | some v => decide (v ≠ 0)

/-- The expired flag computed for one projectile (lines 337-342):
only when both lifeSpan and creationTime are truthy,
expired = currentTime - creationTime > lifeSpan. -/
def isExpired (currentTime : ℚ) (proj : PhysicsObject) : Bool :=
  if numTruthy proj.lifeSpan && numTruthy proj.creationTime then
    decide (currentTime - proj.creationTime.getD 0 > proj.lifeSpan.getD 0)
  else false

/-- One submunition spawned by a cluster split (lines 354-381): a fresh awake
sphere body at the parent's position, velocity copied from the parent and then
applyImpulse(spreadDir * SUBMUNITION_SPREAD_IMPULSE) with
invMass = 1 / SUBMUNITION_MASS; id sub_<parent>_<i>; typed STANDARD, flagged
isSubmunition, lifeSpan SUBMUNITION_LIFESPAN_MS, creationTime = now.
spreadDir is the random unit direction (Math.random-based, then .unit()),
supplied as an oracle. -/
def mkSubmunition (parent : PhysicsObject) (currentTime : ℚ) (spreadDir : Vec3)
    (i : Nat) : PhysicsObject :=
  { body := { position := parent.body.position
              quaternion := Quat.identity
              velocity := parent.body.velocity.vadd
                (Vec3.scale (1 / SUBMUNITION_MASS)
                  (Vec3.scale SUBMUNITION_SPREAD_IMPULSE spreadDir))
              sleeping := false
              shapeType := sphereShapeTypeNumber }
    id := "sub_" ++ parent.id ++ "_" ++ toString i
    isKing := false
    initialY := parent.body.position.y
    isFallen := false
    projectileType := some ProjectileType.STANDARD
    lifeSpan := some SUBMUNITION_LIFESPAN_MS
    creationTime := some currentTime
    hasSplit := false
    isSubmunition := true }

/-- The type-specific transition of one projectile (lines 344-382), returning
the updated projectile and the submunitions it spawned this frame:
an EXPLOSIVE that has not split becomes hasSplit when expired or sleeping
(its handleExplosion side effect on the blocks is the separate handleExplosion
model above); a CLUSTER that has not split becomes hasSplit when expired and
spawns SUBMUNITION_COUNT submunitions; everything else is unchanged. -/
def projectileTransition (currentTime : ℚ) (spreadDirs : Nat → Vec3)
    (proj : PhysicsObject) : PhysicsObject × List PhysicsObject :=
  let expired := isExpired currentTime proj
  if proj.projectileType = some ProjectileType.EXPLOSIVE ∧ proj.hasSplit = false then
    if expired || proj.body.sleeping then ({ proj with hasSplit := true }, [])
    else (proj, [])
  else if proj.projectileType = some ProjectileType.CLUSTER ∧ proj.hasSplit = false
      ∧ expired = true then
    ({ proj with hasSplit := true },
     (List.range SUBMUNITION_COUNT).map
       (fun i => mkSubmunition proj currentTime (spreadDirs i) i))
  else (proj, [])

/-- The removal decision for one (already transitioned) projectile
(lines 384-395): below the floor threshold y < -10, or has split, or an
expired submunition, or sleeping with velocity.lengthSquared() < 0.01 AND
(!proj.projectileType || proj.isSubmunition) — note a launched STANDARD or
HEAVY projectile has a (truthy) projectileType, so the last disjunct holds
only for untyped objects and submunitions. -/
def shouldRemove (currentTime : ℚ) (proj : PhysicsObject) : Bool :=
  if proj.body.position.y < -10 then true
  else if proj.hasSplit then true
  else if isExpired currentTime proj && proj.isSubmunition then true
  else if proj.body.sleeping && decide (proj.body.velocity.lengthSquared < 0.01) then
    proj.projectileType.isNone || proj.isSubmunition
  else false

/-- projectileTransition applied to each projectile of the active list in
order, projectile number k drawing its spread directions from spreadDirs k. -/
def transitionAll (currentTime : ℚ) (spreadDirs : Nat → Nat → Vec3) (k : Nat) :
    List PhysicsObject → List (PhysicsObject × List PhysicsObject)
  | [] => []
  | proj :: rest =>
    projectileTransition currentTime (spreadDirs k) proj
      :: transitionAll currentTime spreadDirs (k + 1) rest

/-- One frame of the projectile sweep (lines 324-406): every projectile is
transitioned, the removal list is filtered out, and ONLY THEN are the newly
spawned submunitions appended — exactly the code's ordering (filter at
line 403, push at line 405).  Returns (next active list, submunitions
spawned this frame). -/
def projectileFrame (currentTime : ℚ) (spreadDirs : Nat → Nat → Vec3)
    (projectiles : List PhysicsObject) :
    List PhysicsObject × List PhysicsObject :=
  let stepped := transitionAll currentTime spreadDirs 0 projectiles
  let processed := stepped.map Prod.fst
  let newSubmunitions := stepped.flatMap Prod.snd
  let kept := processed.filter (fun p => !(shouldRemove currentTime p))
  (kept ++ newSubmunitions, newSubmunitions)

/-! ### Helper lemmas: fall detection -/

/-- Normal form of fallStep's entity update: body synced, isFallen ORed with
this frame's fall condition. -/
theorem fallStep_fst (obj : PhysicsObject) (o : Body) :
    (fallStep obj o).1
      = { obj with body := o, isFallen := obj.isFallen || fallCondition obj o } := by
  unfold fallStep
  cases h1 : obj.isFallen <;> cases h2 : fallCondition obj o <;> simp [h1, h2]

/-- Normal form of fallStep's emitted events: one event exactly on the frame
that first satisfies the fall condition. -/
theorem fallStep_snd (obj : PhysicsObject) (o : Body) :
    (fallStep obj o).2
      = if obj.isFallen = false ∧ fallCondition obj o = true
          then [{ blockId := obj.id, isKing := obj.isKing }] else [] := by
  unfold fallStep
  cases h1 : obj.isFallen <;> cases h2 : fallCondition obj o <;> simp [h1, h2]

/-- The fall condition reads only initialY of the entity (plus the
observation), so it is unchanged by fallStep's entity update. -/
theorem fallCondition_update (obj : PhysicsObject) (b : Body) (f : Bool)
    (o : Body) :
    fallCondition { obj with body := b, isFallen := f } o = fallCondition obj o := rfl

/-- Claim C2: for every structure block that is not tilted (its local up axis
still points up, i.e. the world-space up component is not below 0.5), fall
detection marks it fallen exactly when its body's center y is strictly below
its initial center y minus 0.375 block units, and emits the event exactly
then. -/
theorem drop_threshold_exact (obj : PhysicsObject) (o : Body)
    (hNotFallen : obj.isFallen = false)
    (hUpright : ¬ ((o.quaternion.vmult ⟨0, 1, 0⟩).y < 0.5)) :
    ((fallStep obj o).1.isFallen = true
       ↔ o.position.y < obj.initialY - BLOCK_SIZE * 0.375) ∧
    ((fallStep obj o).2 ≠ []
       ↔ o.position.y < obj.initialY - BLOCK_SIZE * 0.375) := by
  have hcond : fallCondition obj o
      = decide (o.position.y < obj.initialY - BLOCK_SIZE * 0.375) := by
    simp only [fallCondition]
    rw [decide_eq_false hUpright]
    simp
  rw [fallStep_fst, fallStep_snd]
  simp only [hNotFallen, Bool.false_or, hcond]
  by_cases hd : o.position.y < obj.initialY - BLOCK_SIZE * 0.375
  · simp [hd]
  · simp [hd]

/-- Claim C3: with no significant drop, a tilt whose world-space up component
is below 0.5 marks every non-sphere block (cube, cylinder, 2x1x1, 3x1x1)
fallen with one emitted event, while a sphere-shaped block is never marked
fallen by tilt alone. -/
theorem tilt_threshold_exemption (shape : BlockShape) (obj : PhysicsObject)
    (o : Body)
    (hShape : o.shapeType = cannonShapeTypeNumber shape)
    (hNotFallen : obj.isFallen = false)
    (hNotDropped : ¬ (o.position.y < obj.initialY - BLOCK_SIZE * 0.375))
    (hTilted : (o.quaternion.vmult ⟨0, 1, 0⟩).y < 0.5) :
    (shape = BlockShape.sphere →
       (fallStep obj o).1.isFallen = false ∧ (fallStep obj o).2 = []) ∧
    (shape ≠ BlockShape.sphere →
       (fallStep obj o).1.isFallen = true ∧
       (fallStep obj o).2 = [{ blockId := obj.id, isKing := obj.isKing }]) := by
  have hcond : fallCondition obj o
      = !decide (o.shapeType = sphereShapeTypeNumber) := by
    simp only [fallCondition]
    rw [decide_eq_false hNotDropped, decide_eq_true hTilted]
    simp
  rw [fallStep_fst, fallStep_snd]
  simp only [hNotFallen, Bool.false_or, hcond, hShape]
  constructor
  · intro hs
    subst hs
    simp [cannonShapeTypeNumber, sphereShapeTypeNumber]
  · intro hs
    cases shape <;> simp_all [cannonShapeTypeNumber, sphereShapeTypeNumber]

/-! ### Concrete inputs shared by the witnesses -/

def wBlock : PhysicsObject := createBlockVisualAndPhysics
  { id := "b1", x := 0, y := 2, z := 0, shape := none, isKing := none, color := none }

/-- A post-step state whose center dropped by 0.375 - 0.001: shy of the
threshold. -/
def wObsDropAlmost : Body :=
  { position := ⟨0, 2 - 0.375 + 0.001, 0⟩, quaternion := Quat.identity,
    velocity := Vec3.zero, sleeping := false, shapeType := 4 }

/-- A post-step state whose center dropped by 0.375 + 0.001: past the
threshold. -/
def wObsDropPast : Body :=
  { position := ⟨0, 2 - 0.375 - 0.001, 0⟩, quaternion := Quat.identity,
    velocity := Vec3.zero, sleeping := false, shapeType := 4 }

/-- A box-shaped post-step state tilted so the up component is 7/25 < 0.5
(unit quaternion (0, 0, 3/5, 4/5)), with no drop. -/
def wObsTiltBox : Body :=
  { position := ⟨0, 2, 0⟩, quaternion := ⟨0, 0, 3/5, 4/5⟩,
    velocity := Vec3.zero, sleeping := false, shapeType := 4 }

/-- The same tilted state on a sphere collision shape. -/
def wObsTiltSphere : Body :=
  { position := ⟨0, 2, 0⟩, quaternion := ⟨0, 0, 3/5, 4/5⟩,
    velocity := Vec3.zero, sleeping := false, shapeType := 1 }

/-- Witness for C2 at a concrete block: a 0.376 drop trips the marker
(iff instantiated with its left side provable), a 0.374 drop does not. -/
theorem drop_threshold_exact_witness :
    (wBlock.isFallen = false
      ∧ ¬ ((wObsDropPast.quaternion.vmult ⟨0, 1, 0⟩).y < 0.5)
      ∧ ¬ ((wObsDropAlmost.quaternion.vmult ⟨0, 1, 0⟩).y < 0.5)) ∧
    ((fallStep wBlock wObsDropPast).1.isFallen = true
       ↔ wObsDropPast.position.y < wBlock.initialY - BLOCK_SIZE * 0.375) ∧
    ((fallStep wBlock wObsDropAlmost).1.isFallen = true
       ↔ wObsDropAlmost.position.y < wBlock.initialY - BLOCK_SIZE * 0.375) :=
  ⟨⟨by norm_num [wBlock, createBlockVisualAndPhysics],
    by norm_num [wObsDropPast, Quat.identity, Quat.vmult],
    by norm_num [wObsDropAlmost, Quat.identity, Quat.vmult]⟩,
   (drop_threshold_exact wBlock wObsDropPast
      (by norm_num [wBlock, createBlockVisualAndPhysics])
      (by norm_num [wObsDropPast, Quat.identity, Quat.vmult])).1,
   (drop_threshold_exact wBlock wObsDropAlmost
      (by norm_num [wBlock, createBlockVisualAndPhysics])
      (by norm_num [wObsDropAlmost, Quat.identity, Quat.vmult])).1⟩

/-- Witness for C3 at a concrete block: the 7/25-up tilt fells the box and
spares the sphere. -/
theorem tilt_threshold_exemption_witness :
    (wBlock.isFallen = false
      ∧ wObsTiltBox.shapeType = cannonShapeTypeNumber BlockShape.cube
      ∧ wObsTiltSphere.shapeType = cannonShapeTypeNumber BlockShape.sphere
      ∧ ((wObsTiltBox.quaternion.vmult ⟨0, 1, 0⟩).y < 0.5)) ∧
    ((fallStep wBlock wObsTiltBox).1.isFallen = true ∧
     (fallStep wBlock wObsTiltBox).2 = [{ blockId := wBlock.id, isKing := wBlock.isKing }]) ∧
    ((fallStep wBlock wObsTiltSphere).1.isFallen = false ∧
     (fallStep wBlock wObsTiltSphere).2 = []) :=
  ⟨⟨by norm_num [wBlock, createBlockVisualAndPhysics],
    by norm_num [wObsTiltBox, cannonShapeTypeNumber],
    by norm_num [wObsTiltSphere, cannonShapeTypeNumber],
    by norm_num [wObsTiltBox, Quat.vmult]⟩,
   (tilt_threshold_exemption BlockShape.cube wBlock wObsTiltBox
      (by norm_num [wObsTiltBox, cannonShapeTypeNumber])
      (by norm_num [wBlock, createBlockVisualAndPhysics])
      (by norm_num [wObsTiltBox, wBlock, createBlockVisualAndPhysics, BLOCK_SIZE])
      (by norm_num [wObsTiltBox, Quat.vmult])).2 (by simp),
   (tilt_threshold_exemption BlockShape.sphere wBlock wObsTiltSphere
      (by norm_num [wObsTiltSphere, cannonShapeTypeNumber])
      (by norm_num [wBlock, createBlockVisualAndPhysics])
      (by norm_num [wObsTiltSphere, wBlock, createBlockVisualAndPhysics, BLOCK_SIZE])
      (by norm_num [wObsTiltSphere, Quat.vmult])).1 rfl⟩

/-! ### Helper lemmas: single-block traces -/

/-- A block already marked fallen stays marked and never emits again,
no matter how many further physics steps are observed. -/
theorem runTrace_of_fallen (obs : List Body) (obj : PhysicsObject)
    (h : obj.isFallen = true) :
    (runTrace obj obs).2 = [] ∧ (runTrace obj obs).1.isFallen = true := by
  induction obs generalizing obj with
  | nil => simpa [runTrace] using h
  | cons o rest ih =>
    have hfst : (fallStep obj o).1.isFallen = true := by
      rw [fallStep_fst]; simp [h]
    have hsnd : (fallStep obj o).2 = [] := by
      rw [fallStep_snd]; simp [h]
    simp only [runTrace, hsnd, List.nil_append]
    exact ih _ hfst

/-- A block starting unfallen over a whole trace: the events are exactly one
event when some observation satisfies the fall condition and none otherwise,
and the final flag records the same disjunction. -/
theorem runTrace_of_not_fallen (obs : List Body) (obj : PhysicsObject)
    (h : obj.isFallen = false) :
    (runTrace obj obs).2
        = (if obs.any (fun o => fallCondition obj o)
            then [{ blockId := obj.id, isKing := obj.isKing }] else []) ∧
    (runTrace obj obs).1.isFallen = obs.any (fun o => fallCondition obj o) := by
  induction obs generalizing obj with
  | nil => simpa [runTrace] using h
  | cons o rest ih =>
    cases hc : fallCondition obj o with
    | true =>
      have hfst : (fallStep obj o).1.isFallen = true := by
        rw [fallStep_fst]; simp [hc]
      have hsnd : (fallStep obj o).2 = [{ blockId := obj.id, isKing := obj.isKing }] := by
        rw [fallStep_snd]; simp [h, hc]
      have hrest := runTrace_of_fallen rest (fallStep obj o).1 hfst
      simp [runTrace, hsnd, hrest.1, hrest.2, hc]
    | false =>
      have hsnd : (fallStep obj o).2 = [] := by
        rw [fallStep_snd]; simp [hc]
      have hf : ((fallStep obj o).1).isFallen = false := by
        rw [fallStep_fst]; simp [h, hc]
      have hupd := ih (fallStep obj o).1 hf
      rw [fallStep_fst] at hupd
      simp only [fallCondition_update] at hupd
      simp only [runTrace, hsnd, List.nil_append, List.any_cons, hc, Bool.false_or]
      rw [fallStep_fst]
      simpa using hupd

/-- Claim C1: starting from an unfallen block, a whole-session trace emits the
block-fallen event (with the block's id and golden flag) at most once, namely
exactly one event when some step's observation satisfies a fall condition —
emitted at the first such step — and no event at all otherwise; the fallen
flag is set exactly on traces containing such a step. -/
theorem block_fallen_emitted_once (obj : PhysicsObject) (obs : List Body)
    (hStart : obj.isFallen = false) :
    ((runTrace obj obs).2
        = if obs.any (fun o => fallCondition obj o)
            then [{ blockId := obj.id, isKing := obj.isKing }] else []) ∧
    ((runTrace obj obs).1.isFallen = obs.any (fun o => fallCondition obj o)) ∧
    ((runTrace obj obs).2.length ≤ 1) ∧
    (∀ pre o post, obs = pre ++ o :: post →
        (∀ o' ∈ pre, fallCondition obj o' = false) →
        fallCondition obj o = true →
        (runTrace obj pre).2 = [] ∧
        (runTrace obj (pre ++ [o])).2
          = [{ blockId := obj.id, isKing := obj.isKing }]) := by
  obtain ⟨hev, hflag⟩ := runTrace_of_not_fallen obs obj hStart
  refine ⟨hev, hflag, ?_, ?_⟩
  · rw [hev]
    by_cases hany : obs.any (fun o => fallCondition obj o) = true <;> simp [hany]
  · intro pre o post _ hpre hcond
    have hpreAny : pre.any (fun o' => fallCondition obj o') = false := by
      simp only [List.any_eq_false]
      intro x hx
      simp [hpre x hx]
    constructor
    · rw [(runTrace_of_not_fallen pre obj hStart).1, hpreAny]
      simp
    · rw [(runTrace_of_not_fallen (pre ++ [o]) obj hStart).1]
      simp [List.any_append, hpreAny, hcond]

/-- Witness for C1: a three-frame session in which the second and third frames
both satisfy the drop condition still emits exactly one event, on the second
frame. -/
theorem block_fallen_emitted_once_witness :
    (wBlock.isFallen = false) ∧
    ((runTrace wBlock [wObsDropAlmost, wObsDropPast, wObsDropPast]).2
        = if ([wObsDropAlmost, wObsDropPast, wObsDropPast]).any
              (fun o => fallCondition wBlock o)
            then [{ blockId := wBlock.id, isKing := wBlock.isKing }] else []) ∧
    ((runTrace wBlock [wObsDropAlmost, wObsDropPast, wObsDropPast]).2.length ≤ 1) ∧
    ((runTrace wBlock [wObsDropAlmost]).2 = [] ∧
     (runTrace wBlock [wObsDropAlmost, wObsDropPast]).2
        = [{ blockId := wBlock.id, isKing := wBlock.isKing }]) :=
  ⟨by norm_num [wBlock, createBlockVisualAndPhysics],
   (block_fallen_emitted_once wBlock [wObsDropAlmost, wObsDropPast, wObsDropPast]
      (by norm_num [wBlock, createBlockVisualAndPhysics])).1,
   (block_fallen_emitted_once wBlock [wObsDropAlmost, wObsDropPast, wObsDropPast]
      (by norm_num [wBlock, createBlockVisualAndPhysics])).2.2.1,
   (block_fallen_emitted_once wBlock [wObsDropAlmost, wObsDropPast, wObsDropPast]
      (by norm_num [wBlock, createBlockVisualAndPhysics])).2.2.2
      [wObsDropAlmost] wObsDropPast [wObsDropPast] rfl
      (by
        intro o' ho'
        simp only [List.mem_singleton] at ho'
        subst ho'
        norm_num [fallCondition, wBlock, wObsDropAlmost, createBlockVisualAndPhysics,
          Quat.identity, Quat.vmult, BLOCK_SIZE, sphereShapeTypeNumber])
      (by
        norm_num [fallCondition, wBlock, wObsDropPast, createBlockVisualAndPhysics,
          Quat.identity, Quat.vmult, BLOCK_SIZE, sphereShapeTypeNumber])⟩

/-! ### Helper lemmas: multi-block frames and the golden block -/

/-- getGoldenBlockPosition is absent whenever every golden entity is already
flagged fallen (in particular when no entity is golden at all) — even though
the entities and their bodies are still present in the list. -/
theorem getGolden_none (objs : List PhysicsObject)
    (h : ∀ obj ∈ objs, obj.isKing = true → obj.isFallen = true) :
    getGoldenBlockPosition objs = none := by
  unfold getGoldenBlockPosition
  rw [List.find?_eq_none.mpr]
  · rfl
  · intro obj hm
    cases hk : obj.isKing with
    | false => simp [hk]
    | true => simp [hk, h obj hm hk]

/-- Entities processed by one frame keep their isKing flag and never clear
their isFallen flag; every emitted event carries the emitting entity's isKing. -/
theorem fallAll_invariant (obs : Nat → Body) (k : Nat) (objs : List PhysicsObject) :
    ∀ pr ∈ fallAll obs k objs,
      (∃ obj ∈ objs, pr.1.isKing = obj.isKing
          ∧ (obj.isFallen = true → pr.1.isFallen = true)
          ∧ ∀ ev ∈ pr.2, ev.isKing = obj.isKing) := by
  induction objs generalizing k with
  | nil => intro pr hpr; simp [fallAll] at hpr
  | cons obj rest ih =>
    intro pr hpr
    simp only [fallAll, List.mem_cons] at hpr
    rcases hpr with hpr | hpr
    · refine ⟨obj, by simp, ?_, ?_, ?_⟩
      · rw [hpr, fallStep_fst]
      · intro hf
        rw [hpr, fallStep_fst]
        simp [hf]
      · intro ev hev
        rw [hpr, fallStep_snd] at hev
        by_cases hcase : obj.isFallen = false ∧ fallCondition obj (obs k) = true
        · rw [if_pos hcase] at hev
          simp only [List.mem_singleton] at hev
          rw [hev]
        · rw [if_neg hcase] at hev
          simp at hev
    · obtain ⟨obj', hm, hrest⟩ := ih (k + 1) pr hpr
      exact ⟨obj', List.mem_cons_of_mem _ hm, hrest⟩

/-- The per-frame invariant, at the blockFrame level. -/
theorem blockFrame_invariant (obs : Nat → Body) (objs : List PhysicsObject)
    (hKing : ∀ obj ∈ objs, obj.isKing = true → obj.isFallen = true) :
    (∀ obj' ∈ (blockFrame obs objs).1, obj'.isKing = true → obj'.isFallen = true) ∧
    (∀ ev ∈ (blockFrame obs objs).2, ev.isKing = true →
        ∃ obj ∈ objs, obj.isKing = true) := by
  constructor
  · intro obj' hm hk
    simp only [blockFrame, List.mem_map] at hm
    obtain ⟨pr, hpr, hfst⟩ := hm
    obtain ⟨obj, hmem, hkeq, hmono, _⟩ := fallAll_invariant obs 0 objs pr hpr
    rw [hfst] at hkeq hmono
    exact hmono (hKing obj hmem (by rw [← hkeq, hk]))
  · intro ev hev hk
    simp only [blockFrame, List.mem_flatMap] at hev
    obtain ⟨pr, hpr, hmem⟩ := hev
    obtain ⟨obj, hobj, _, _, hevk⟩ := fallAll_invariant obs 0 objs pr hpr
    exact ⟨obj, hobj, by rw [← hevk ev hmem, hk]⟩

/-- The "all golden entities are fallen" invariant is preserved by any number
of frames. -/
theorem runFrames_invariant (frames : List (Nat → Body)) (objs : List PhysicsObject)
    (hKing : ∀ obj ∈ objs, obj.isKing = true → obj.isFallen = true) :
    ∀ obj' ∈ (runFrames frames objs).1, obj'.isKing = true → obj'.isFallen = true := by
  induction frames generalizing objs with
  | nil => simpa [runFrames] using hKing
  | cons fr rest ih =>
    simp only [runFrames]
    exact ih (blockFrame fr objs).1 (blockFrame_invariant fr objs hKing).1

/-- No entity is golden after createStructure of a structure with no golden
flag set, and this persists over frames; moreover every event of every frame
then carries isKing = false. -/
theorem runFrames_events_not_king (frames : List (Nat → Body))
    (objs : List PhysicsObject) (hNo : ∀ obj ∈ objs, obj.isKing = false) :
    (∀ obj' ∈ (runFrames frames objs).1, obj'.isKing = false) ∧
    (∀ ev ∈ (runFrames frames objs).2, ev.isKing = false) := by
  induction frames generalizing objs with
  | nil =>
    constructor
    · simpa [runFrames] using hNo
    · simp [runFrames]
  | cons fr rest ih =>
    have hstep : ∀ obj' ∈ (blockFrame fr objs).1, obj'.isKing = false := by
      intro obj' hm
      simp only [blockFrame, List.mem_map] at hm
      obtain ⟨pr, hpr, hfst⟩ := hm
      obtain ⟨obj, hmem, hkeq, _, _⟩ := fallAll_invariant fr 0 objs pr hpr
      rw [← hfst, hkeq]
      exact hNo obj hmem
    have hevs : ∀ ev ∈ (blockFrame fr objs).2, ev.isKing = false := by
      intro ev hev
      simp only [blockFrame, List.mem_flatMap] at hev
      obtain ⟨pr, hpr, hmem⟩ := hev
      obtain ⟨obj, hobj, _, _, hevk⟩ := fallAll_invariant fr 0 objs pr hpr
      rw [hevk ev hmem]
      exact hNo obj hobj
    obtain ⟨h1, h2⟩ := ih (blockFrame fr objs).1 hstep
    refine ⟨?_, ?_⟩
    · simpa [runFrames] using h1
    · simp only [runFrames, List.mem_append]
      intro ev hev
      rcases hev with hev | hev
      · exact hevs ev hev
      · exact h2 ev hev

/-- Claim C9: loading a structure containing no golden-flagged block makes
getGoldenBlockPosition absent at creation and after any sequence of frames,
and no block-fallen event of any frame ever carries golden = true. -/
theorem no_golden_block_session (cfgs : List BlockConfig)
    (hNoKing : ∀ c ∈ cfgs, c.isKing ≠ some true) (frames : List (Nat → Body)) :
    getGoldenBlockPosition (createStructure cfgs) = none ∧
    getGoldenBlockPosition (runFrames frames (createStructure cfgs)).1 = none ∧
    ∀ ev ∈ (runFrames frames (createStructure cfgs)).2, ev.isKing = false := by
  have hents : ∀ obj ∈ createStructure cfgs, obj.isKing = false := by
    intro obj hm
    simp only [createStructure, List.mem_map] at hm
    obtain ⟨c, hc, hobj⟩ := hm
    rw [← hobj]
    have := hNoKing c hc
    cases hk : c.isKing with
    | none => simp [createBlockVisualAndPhysics, hk]
    | some b =>
      cases b with
      | false => simp [createBlockVisualAndPhysics, hk]
      | true => exact absurd hk this
  obtain ⟨hob, hev⟩ := runFrames_events_not_king frames (createStructure cfgs) hents
  refine ⟨?_, ?_, hev⟩
  · exact getGolden_none _ (fun obj hm hk => absurd hk (by simp [hents obj hm]))
  · exact getGolden_none _ (fun obj hm hk => absurd hk (by simp [hob obj hm]))

/-- Claim C10: getGoldenBlockPosition reports the current body position of a
golden entity exactly while one exists with its fallen flag unset; once every
golden entity is flagged fallen — the entities and bodies still being present —
it is absent, and stays absent after any further frames. -/
theorem golden_position_tracks_fallen (objs : List PhysicsObject) :
    ((∃ g ∈ objs, g.isKing = true ∧ g.isFallen = false) →
        ∃ g ∈ objs, g.isKing = true ∧ g.isFallen = false ∧
          getGoldenBlockPosition objs = some g.body.position) ∧
    ((∀ g ∈ objs, g.isKing = true → g.isFallen = true) →
        getGoldenBlockPosition objs = none ∧
        ∀ frames, getGoldenBlockPosition (runFrames frames objs).1 = none) := by
  constructor
  · intro ⟨g, hg, hk, hf⟩
    have hsome : (objs.find? (fun obj => obj.isKing && !obj.isFallen)).isSome := by
      rw [List.find?_isSome]
      exact ⟨g, hg, by simp [hk, hf]⟩
    obtain ⟨g', hfind⟩ := Option.isSome_iff_exists.mp hsome
    have hmem := List.mem_of_find?_eq_some hfind
    have hpred := List.find?_some hfind
    simp only [Bool.and_eq_true, Bool.not_eq_true'] at hpred
    refine ⟨g', hmem, hpred.1, hpred.2, ?_⟩
    simp [getGoldenBlockPosition, hfind]
  · intro h
    refine ⟨getGolden_none objs h, fun frames => ?_⟩
    exact getGolden_none _ (runFrames_invariant frames objs h)

/-! ### Concrete inputs for the golden-block witnesses -/

def wGoldenCfg : BlockConfig :=
  { id := "king", x := 0, y := 3, z := 0, shape := none, isKing := some true, color := none }

def wPlainCfg : BlockConfig :=
  { id := "base", x := 0, y := 1, z := 0, shape := none, isKing := none, color := none }

/-- A two-entity world whose golden entity is flagged fallen but still
present. -/
def wFallenGoldenObjs : List PhysicsObject :=
  [{ createBlockVisualAndPhysics wGoldenCfg with isFallen := true },
   createBlockVisualAndPhysics wPlainCfg]

/-- Witness for C9: a one-block structure with no golden flag set yields an
absent golden position initially and after one frame, with no golden event. -/
theorem no_golden_block_session_witness :
    (∀ c ∈ [wPlainCfg], c.isKing ≠ some true) ∧
    (getGoldenBlockPosition (createStructure [wPlainCfg]) = none ∧
     getGoldenBlockPosition
        (runFrames [fun _ => wObsDropPast] (createStructure [wPlainCfg])).1 = none ∧
     ∀ ev ∈ (runFrames [fun _ => wObsDropPast] (createStructure [wPlainCfg])).2,
        ev.isKing = false) :=
  ⟨by simp [wPlainCfg],
   no_golden_block_session [wPlainCfg] (by simp [wPlainCfg]) [fun _ => wObsDropPast]⟩

/-- Witness for C10 (its second conjunct instantiated): with the golden entity
flagged fallen but still present, getGoldenBlockPosition is absent now and
after a further frame. -/
theorem golden_position_tracks_fallen_witness :
    (∀ g ∈ wFallenGoldenObjs, g.isKing = true → g.isFallen = true) ∧
    (getGoldenBlockPosition wFallenGoldenObjs = none ∧
     ∀ frames,
        getGoldenBlockPosition (runFrames frames wFallenGoldenObjs).1 = none) :=
  ⟨by
      intro g hg hk
      simp only [wFallenGoldenObjs, List.mem_cons, List.mem_singleton] at hg
      rcases hg with hg | hg | hg
      · rw [hg]
      · rw [hg] at hk
        simp [createBlockVisualAndPhysics, wPlainCfg] at hk
      · simp at hg,
   (golden_position_tracks_fallen wFallenGoldenObjs).2
     (by
        intro g hg hk
        simp only [wFallenGoldenObjs, List.mem_cons, List.mem_singleton] at hg
        rcases hg with hg | hg | hg
        · rw [hg]
        · rw [hg] at hk
          simp [createBlockVisualAndPhysics, wPlainCfg] at hk
        · simp at hg)⟩

/-! ### Claim C4: charge power curve -/

/-- The claim's own wording for the reported charge power (spec-side
definition, to be compared with the code-side chargeDisplayPower): the value
(elapsedMs / 1500) mod 1.0 — mathematical mod, x - ⌊x⌋ — except that power is
1.0 instead of 0 when the remainder is exactly zero. -/
def claimedChargePower (elapsedMs : ℚ) : ℚ :=
  let r := elapsedMs / 1500 - (⌊elapsedMs / 1500⌋ : ℤ)
  if r = 0 then 1.0 else r

/-- Claim C4: for every hold duration elapsedMs > 0, the reported charge power
equals the claim's sawtooth formula, the final launch power on release is the
maximum of that value and MIN_LAUNCH_POWER = 0.1, the three boundary examples
750 ↦ 0.5, 1500 ↦ 1.0 and 2250 ↦ 0.5 hold, a 1 ms tap launches at exactly
0.1, and the final power is never zero. -/
theorem charge_power_curve (elapsedMs : ℚ) (h : 0 < elapsedMs) :
    chargeDisplayPower elapsedMs = claimedChargePower elapsedMs ∧
    finalLaunchPower elapsedMs = max (claimedChargePower elapsedMs) MIN_LAUNCH_POWER ∧
    chargeDisplayPower 750 = 0.5 ∧
    chargeDisplayPower 1500 = 1.0 ∧
    chargeDisplayPower 2250 = 0.5 ∧
    finalLaunchPower 1 = 0.1 ∧
    MIN_LAUNCH_POWER ≤ finalLaunchPower elapsedMs ∧
    0 < finalLaunchPower elapsedMs := by
  have hraw : (0 : ℚ) < elapsedMs / 1500 := by positivity
  have hmain : chargeDisplayPower elapsedMs = claimedChargePower elapsedMs := by
    norm_num [chargeDisplayPower, claimedChargePower, jsMod,
      MAX_CHARGE_DURATION_MS, MAX_LAUNCH_POWER, hraw]
  have hmin : MIN_LAUNCH_POWER ≤ finalLaunchPower elapsedMs := by
    unfold finalLaunchPower
    exact le_max_left _ _
  refine ⟨hmain, ?_, ?_, ?_, ?_, ?_, hmin, ?_⟩
  · unfold finalLaunchPower
    rw [hmain, max_comm]
  · norm_num [chargeDisplayPower, jsMod, MAX_CHARGE_DURATION_MS, MAX_LAUNCH_POWER]
  · norm_num [chargeDisplayPower, jsMod, MAX_CHARGE_DURATION_MS, MAX_LAUNCH_POWER]
  · norm_num [chargeDisplayPower, jsMod, MAX_CHARGE_DURATION_MS, MAX_LAUNCH_POWER]
  · norm_num [finalLaunchPower, chargeDisplayPower, jsMod, MAX_CHARGE_DURATION_MS,
      MAX_LAUNCH_POWER, MIN_LAUNCH_POWER]
  · calc (0 : ℚ) < MIN_LAUNCH_POWER := by norm_num [MIN_LAUNCH_POWER]
      _ ≤ finalLaunchPower elapsedMs := hmin

/-- Witness for C4 at elapsedMs = 750: half charge reported, and the boundary
values hold. -/
theorem charge_power_curve_witness :
    ((0 : ℚ) < 750) ∧
    (chargeDisplayPower 750 = claimedChargePower 750 ∧
     chargeDisplayPower 750 = 0.5 ∧
     chargeDisplayPower 1500 = 1.0 ∧
     chargeDisplayPower 2250 = 0.5 ∧
     finalLaunchPower 1 = 0.1 ∧
     0 < finalLaunchPower 750) :=
  ⟨by norm_num,
   ⟨(charge_power_curve 750 (by norm_num)).1,
    (charge_power_curve 750 (by norm_num)).2.2.1,
    (charge_power_curve 750 (by norm_num)).2.2.2.1,
    (charge_power_curve 750 (by norm_num)).2.2.2.2.1,
    (charge_power_curve 750 (by norm_num)).2.2.2.2.2.1,
    (charge_power_curve 750 (by norm_num)).2.2.2.2.2.2.2⟩⟩

/-! ### Claim C5: explosion impulse falloff -/

/-- A sleeping standard projectile resting at distance 1 from the origin. -/
def cexSleepingProjectile : PhysicsObject :=
  { body := { position := ⟨1, 0, 0⟩, quaternion := Quat.identity,
              velocity := Vec3.zero, sleeping := true, shapeType := 1 }
    id := "proj", isKing := false, initialY := 0, isFallen := false
    projectileType := some ProjectileType.STANDARD, lifeSpan := none
    creationTime := none, hasSplit := false, isSubmunition := false }

/-- A structure block at distance 1 from the origin (on the z axis). -/
def cexNearBlock : PhysicsObject := createBlockVisualAndPhysics
  { id := "b", x := 0, y := 0, z := 1, shape := none, isKing := none, color := none }

/-- Counterexample to C5 as stated: an explosion at the origin with the game's
radius 3.5 and strength 3.6.  The claim asserts every projectile body at
distance d < r receives an impulse of magnitude s*(1-d/r) and is woken if
sleeping; but handleExplosion iterates the structure blocks only, so the
sleeping projectile at distance 1 is returned identical — velocity still zero,
still asleep — while the block at the same distance 1 does receive the
prescribed impulse (velocity (1/BLOCK_MASS) * s * (1-1/3.5) = 36/7 along z).
The claimed magnitude s * (1 - 1/r) = 18/7 is nonzero, so the claim fails. -/
theorem explosion_falloff_counterexample :
    ((1 : ℚ) * 1 = ((cexSleepingProjectile.body.position).vsub Vec3.zero).lengthSquared) ∧
    ((1 : ℚ) * 1 = ((cexNearBlock.body.position).vsub Vec3.zero).lengthSquared) ∧
    ((1 : ℚ) < EXPLOSION_RADIUS) ∧
    (EXPLOSION_STRENGTH * (1 - 1 / EXPLOSION_RADIUS) ≠ 0) ∧
    ((handleExplosion (fun _ => 1) Vec3.zero EXPLOSION_RADIUS EXPLOSION_STRENGTH
        [cexNearBlock] [cexSleepingProjectile]).2 = [cexSleepingProjectile]) ∧
    (cexSleepingProjectile.body.sleeping = true) ∧
    (cexSleepingProjectile.body.velocity = Vec3.zero) ∧
    ((handleExplosion (fun _ => 1) Vec3.zero EXPLOSION_RADIUS EXPLOSION_STRENGTH
        [cexNearBlock] [cexSleepingProjectile]).1.map (fun o => o.body.velocity)
      = [⟨0, 0, 36/7⟩]) := by
  refine ⟨?_, ?_, ?_, ?_, rfl, rfl, rfl, ?_⟩
  · norm_num [cexSleepingProjectile, Vec3.vsub, Vec3.zero, Vec3.lengthSquared]
  · norm_num [cexNearBlock, createBlockVisualAndPhysics, Vec3.vsub, Vec3.zero,
      Vec3.lengthSquared]
  · norm_num [EXPLOSION_RADIUS]
  · norm_num [EXPLOSION_RADIUS, EXPLOSION_STRENGTH]
  · simp only [handleExplosion, explodeBody, explosionImpulse, cexNearBlock,
      createBlockVisualAndPhysics, EXPLOSION_RADIUS, EXPLOSION_STRENGTH, BLOCK_MASS,
      Vec3.vsub, Vec3.zero, Vec3.scale, Vec3.vadd, List.map_cons, List.map_nil]
    norm_num

/-- Claim C5 amended: per structure-block body, with d pinned to the true
distance: a block at d ≥ r is untouched; a block at d < r is woken and its
velocity gains invMass times the impulse; for 0 < d < r that impulse is the
(s*(1-d/r)/d)-multiple of the offset from the center — i.e. directed away from
the center with squared magnitude (s*(1-d/r))² — and at d = 0 the impulse is
the zero vector (cannon-es normalize leaves the zero vector unchanged), even
though the claim as stated prescribes magnitude s there.  Projectile bodies
are never touched: handleExplosion returns them unchanged, and transforms the
block list pointwise by explodeBody. -/
theorem explosion_impulse_falloff (center : Vec3) (radius strength d : ℚ)
    (b : PhysicsObject) (hr : 0 < radius) (hd0 : 0 ≤ d)
    (hd : d * d = (b.body.position.vsub center).lengthSquared) :
    (∀ dist physicsObjects projectiles,
        (handleExplosion dist center radius strength physicsObjects projectiles).2
          = projectiles) ∧
    (∀ dist physicsObjects projectiles (i : Nat) bb, physicsObjects[i]? = some bb →
        (handleExplosion dist center radius strength physicsObjects projectiles).1[i]?
          = some (explodeBody center radius strength
              (dist (bb.body.position.vsub center)) (1 / BLOCK_MASS) bb)) ∧
    (radius ≤ d → explodeBody center radius strength d (1 / BLOCK_MASS) b = b) ∧
    (d < radius →
        (explodeBody center radius strength d (1 / BLOCK_MASS) b).body.sleeping = false ∧
        (explodeBody center radius strength d (1 / BLOCK_MASS) b).body.velocity
          = b.body.velocity.vadd (Vec3.scale (1 / BLOCK_MASS)
              (explosionImpulse center radius strength d b.body.position))) ∧
    (0 < d → d < radius →
        explosionImpulse center radius strength d b.body.position
          = Vec3.scale (strength * (1 - d / radius) / d)
              (b.body.position.vsub center) ∧
        (explosionImpulse center radius strength d b.body.position).lengthSquared
          = (strength * (1 - d / radius)) * (strength * (1 - d / radius))) ∧
    (d = 0 → explosionImpulse center radius strength d b.body.position = Vec3.zero) := by
  have hmax : d < radius → max 0 (1 - d / radius) = 1 - d / radius := by
    intro hlt
    refine max_eq_right ?_
    rw [sub_nonneg]
    exact le_of_lt ((div_lt_one hr).mpr hlt)
  refine ⟨fun dist pos proj => rfl, ?_, ?_, ?_, ?_, ?_⟩
  · intro dist pos proj i bb hbb
    simp only [handleExplosion]
    rw [List.getElem?_map, hbb]
    rfl
  · intro hge
    unfold explodeBody
    rw [if_neg (not_lt.mpr hge)]
  · intro hlt
    unfold explodeBody
    rw [if_pos hlt]
    exact ⟨rfl, rfl⟩
  · intro hdpos hlt
    have hdne : d ≠ 0 := ne_of_gt hdpos
    have himp : explosionImpulse center radius strength d b.body.position
        = Vec3.scale (strength * (1 - d / radius) / d)
            (b.body.position.vsub center) := by
      simp only [explosionImpulse]
      rw [if_pos hdpos, hmax hlt]
      simp only [Vec3.scale, Vec3.mk.injEq]
      refine ⟨by ring, by ring, by ring⟩
    refine ⟨himp, ?_⟩
    rw [himp]
    simp only [Vec3.scale, Vec3.lengthSquared]
    have hlen : (b.body.position.vsub center).x * (b.body.position.vsub center).x
        + (b.body.position.vsub center).y * (b.body.position.vsub center).y
        + (b.body.position.vsub center).z * (b.body.position.vsub center).z
        = d * d := by rw [hd]; rfl
    have hcalc : (strength * (1 - d / radius) / d * (b.body.position.vsub center).x)
          * (strength * (1 - d / radius) / d * (b.body.position.vsub center).x)
        + (strength * (1 - d / radius) / d * (b.body.position.vsub center).y)
          * (strength * (1 - d / radius) / d * (b.body.position.vsub center).y)
        + (strength * (1 - d / radius) / d * (b.body.position.vsub center).z)
          * (strength * (1 - d / radius) / d * (b.body.position.vsub center).z)
        = (strength * (1 - d / radius) / d) * (strength * (1 - d / radius) / d)
            * ((b.body.position.vsub center).x * (b.body.position.vsub center).x
              + (b.body.position.vsub center).y * (b.body.position.vsub center).y
              + (b.body.position.vsub center).z * (b.body.position.vsub center).z) := by
      ring
    rw [hcalc, hlen]
    field_simp
    ring
  · intro h0
    subst h0
    simp only [explosionImpulse]
    rw [if_neg (lt_irrefl 0)]
    simp [Vec3.scale, Vec3.zero]

/-- Witness for the amended C5 at the game's constants: a block at distance
r/2 = 1.75 from the origin, where the impulse squared magnitude is (s*0.5)². -/
theorem explosion_impulse_falloff_witness :
    ((0 : ℚ) < EXPLOSION_RADIUS ∧ (0 : ℚ) ≤ 7/4 ∧
     (7/4 : ℚ) * (7/4)
       = ((⟨0, 0, 7/4⟩ : Vec3).vsub Vec3.zero).lengthSquared) ∧
    ((0 : ℚ) < 7/4 → (7/4 : ℚ) < EXPLOSION_RADIUS →
        explosionImpulse Vec3.zero EXPLOSION_RADIUS EXPLOSION_STRENGTH (7/4)
            ({ cexNearBlock with
                body := { cexNearBlock.body with position := ⟨0, 0, 7/4⟩ } }).body.position
          = Vec3.scale (EXPLOSION_STRENGTH * (1 - 7/4 / EXPLOSION_RADIUS) / (7/4))
              (((⟨0, 0, 7/4⟩ : Vec3)).vsub Vec3.zero) ∧
        (explosionImpulse Vec3.zero EXPLOSION_RADIUS EXPLOSION_STRENGTH (7/4)
            ({ cexNearBlock with
                body := { cexNearBlock.body with position := ⟨0, 0, 7/4⟩ } }).body.position).lengthSquared
          = (EXPLOSION_STRENGTH * (1 - 7/4 / EXPLOSION_RADIUS))
              * (EXPLOSION_STRENGTH * (1 - 7/4 / EXPLOSION_RADIUS))) :=
  ⟨⟨by norm_num [EXPLOSION_RADIUS], by norm_num,
    by norm_num [Vec3.vsub, Vec3.zero, Vec3.lengthSquared]⟩,
   (explosion_impulse_falloff Vec3.zero EXPLOSION_RADIUS EXPLOSION_STRENGTH (7/4)
      { cexNearBlock with body := { cexNearBlock.body with position := ⟨0, 0, 7/4⟩ } }
      (by norm_num [EXPLOSION_RADIUS]) (by norm_num)
      (by norm_num [Vec3.vsub, Vec3.zero, Vec3.lengthSquared])).2.2.2.2.1⟩

/-! ### Helper lemmas: projectile sweep -/

/-- Only a cluster projectile that has not yet split spawns submunitions. -/
theorem projectileTransition_no_spawn (t : ℚ) (dirs : Nat → Vec3)
    (p : PhysicsObject)
    (h : p.projectileType ≠ some ProjectileType.CLUSTER ∨ p.hasSplit = true) :
    (projectileTransition t dirs p).2 = [] := by
  have hnc : ¬ (p.projectileType = some ProjectileType.CLUSTER
      ∧ p.hasSplit = false ∧ isExpired t p = true) := by
    rintro ⟨h1, h2, _⟩
    rcases h with h | h
    · exact h h1
    · rw [h] at h2; cases h2
  unfold projectileTransition
  by_cases h1 : p.projectileType = some ProjectileType.EXPLOSIVE ∧ p.hasSplit = false
  · rw [if_pos h1]
    by_cases h2 : (isExpired t p || p.body.sleeping) = true
    · simp [h2]
    · simp [h2]
  · rw [if_neg h1, if_neg hnc]

/-- A projectile flagged hasSplit is always removed by the sweep. -/
theorem shouldRemove_of_hasSplit (t : ℚ) (p : PhysicsObject)
    (h : p.hasSplit = true) : shouldRemove t p = true := by
  unfold shouldRemove
  by_cases hy : p.body.position.y < -10
  · rw [if_pos hy]
  · rw [if_neg hy, if_pos h]

/-- A frame over projectiles none of which is an unsplit cluster spawns no
submunitions at all. -/
theorem projectileFrame_no_spawn (t : ℚ) (dirs : Nat → Nat → Vec3)
    (l : List PhysicsObject)
    (h : ∀ q ∈ l, q.projectileType ≠ some ProjectileType.CLUSTER ∨ q.hasSplit = true) :
    (projectileFrame t dirs l).2 = [] := by
  simp only [projectileFrame]
  suffices hall : ∀ k, (transitionAll t dirs k l).flatMap Prod.snd = [] by exact hall 0
  induction l with
  | nil => intro k; simp [transitionAll]
  | cons q rest ih =>
    intro k
    simp only [transitionAll, List.flatMap_cons]
    rw [projectileTransition_no_spawn t (dirs k) q (h q (by simp)),
      ih (fun q' hq' => h q' (List.mem_cons_of_mem _ hq')) (k + 1)]
    rfl

/-! ### Claim C6: cluster split -/

/-- Claim C6: a not-yet-split cluster projectile whose split delay has expired
(its lifeSpan is the split delay 1000 ms, its creation time ct is a real
timestamp, and more than the delay has elapsed) spawns in that frame's sweep
exactly SUBMUNITION_COUNT = 5 submunitions — the i-th carrying the parent's
velocity plus the fixed-magnitude spread impulse along the i-th random unit
direction, a fresh lifespan and this frame's creation time — and the parent is
removed by the very same sweep, so the frame's surviving list is exactly the
spawned submunitions; re-running the sweep on that list at any later time
spawns nothing further. -/
theorem cluster_splits_exactly_once (t ct : ℚ) (dirs : Nat → Nat → Vec3)
    (p : PhysicsObject)
    (hty : p.projectileType = some ProjectileType.CLUSTER)
    (hsplit : p.hasSplit = false)
    (hls : p.lifeSpan = some CLUSTER_SPLIT_DELAY_MS)
    (hct : p.creationTime = some ct) (hct0 : ct ≠ 0)
    (hexp : CLUSTER_SPLIT_DELAY_MS < t - ct) :
    ((projectileFrame t dirs [p]).2).length = SUBMUNITION_COUNT ∧
    (projectileFrame t dirs [p]).1 = (projectileFrame t dirs [p]).2 ∧
    (∀ i : Nat, i < SUBMUNITION_COUNT →
        ((projectileFrame t dirs [p]).2)[i]? = some (mkSubmunition p t (dirs 0 i) i) ∧
        (mkSubmunition p t (dirs 0 i) i).body.velocity
          = p.body.velocity.vadd
              (Vec3.scale (SUBMUNITION_SPREAD_IMPULSE / SUBMUNITION_MASS) (dirs 0 i)) ∧
        (mkSubmunition p t (dirs 0 i) i).isSubmunition = true ∧
        (mkSubmunition p t (dirs 0 i) i).projectileType = some ProjectileType.STANDARD ∧
        (mkSubmunition p t (dirs 0 i) i).lifeSpan = some SUBMUNITION_LIFESPAN_MS ∧
        (mkSubmunition p t (dirs 0 i) i).creationTime = some t) ∧
    (∀ t' (dirs' : Nat → Nat → Vec3),
        (projectileFrame t' dirs' (projectileFrame t dirs [p]).1).2 = []) := by
  have hexpired : isExpired t p = true := by
    rw [isExpired, hls, hct]
    norm_num [numTruthy, CLUSTER_SPLIT_DELAY_MS, hct0]
    have := hexp
    rw [CLUSTER_SPLIT_DELAY_MS] at this
    linarith
  have hne : ¬ (p.projectileType = some ProjectileType.EXPLOSIVE ∧ p.hasSplit = false) := by
    rintro ⟨h1, _⟩
    rw [hty] at h1
    cases h1
  have htrans : projectileTransition t (dirs 0) p
      = ({ p with hasSplit := true },
         (List.range SUBMUNITION_COUNT).map
           (fun i => mkSubmunition p t (dirs 0 i) i)) := by
    unfold projectileTransition
    rw [if_neg hne, if_pos ⟨hty, hsplit, hexpired⟩]
  have hframe : projectileFrame t dirs [p]
      = ((List.range SUBMUNITION_COUNT).map (fun i => mkSubmunition p t (dirs 0 i) i),
         (List.range SUBMUNITION_COUNT).map (fun i => mkSubmunition p t (dirs 0 i) i)) := by
    simp only [projectileFrame, transitionAll, htrans, List.map_cons, List.map_nil,
      List.flatMap_cons, List.flatMap_nil, List.append_nil, List.filter_cons,
      List.filter_nil]
    rw [shouldRemove_of_hasSplit t { p with hasSplit := true } rfl]
    simp
  refine ⟨?_, ?_, ?_, ?_⟩
  · rw [hframe]
    simp
  · rw [hframe]
  · intro i hi
    refine ⟨?_, ?_, rfl, rfl, rfl, rfl⟩
    · rw [hframe]
      simp only [List.getElem?_map, List.getElem?_range hi, Option.map_some']
    · simp only [mkSubmunition, Vec3.scale, Vec3.vadd, Vec3.mk.injEq]
      rw [SUBMUNITION_SPREAD_IMPULSE, SUBMUNITION_MASS]
      refine ⟨by ring, by ring, by ring⟩
  · intro t' dirs'
    refine projectileFrame_no_spawn t' dirs' _ ?_
    intro q hq
    rw [hframe] at hq
    simp only [List.mem_map, List.mem_range] at hq
    obtain ⟨i, _, hqe⟩ := hq
    left
    rw [← hqe]
    intro hcontra
    cases hcontra

/-- A concrete cluster projectile: created at t = 100 ms, split delay 1000 ms. -/
def wCluster : PhysicsObject :=
  { body := { position := ⟨0, 3, 0⟩, quaternion := Quat.identity,
              velocity := ⟨5, 0, 0⟩, sleeping := false, shapeType := 1 }
    id := "c1", isKing := false, initialY := 3, isFallen := false
    projectileType := some ProjectileType.CLUSTER
    lifeSpan := some CLUSTER_SPLIT_DELAY_MS, creationTime := some 100
    hasSplit := false, isSubmunition := false }

/-- Witness for C6: at t = 1200 ms (1100 ms after creation) wCluster splits
into exactly 5 submunitions and disappears from the active list itself. -/
theorem cluster_splits_exactly_once_witness :
    (wCluster.projectileType = some ProjectileType.CLUSTER
      ∧ wCluster.hasSplit = false
      ∧ wCluster.lifeSpan = some CLUSTER_SPLIT_DELAY_MS
      ∧ wCluster.creationTime = some 100
      ∧ (100 : ℚ) ≠ 0
      ∧ CLUSTER_SPLIT_DELAY_MS < (1200 : ℚ) - 100) ∧
    ((projectileFrame 1200 (fun _ _ => ⟨1, 0, 0⟩) [wCluster]).2).length
        = SUBMUNITION_COUNT ∧
    (projectileFrame 1200 (fun _ _ => ⟨1, 0, 0⟩) [wCluster]).1
        = (projectileFrame 1200 (fun _ _ => ⟨1, 0, 0⟩) [wCluster]).2 ∧
    (∀ t' (dirs' : Nat → Nat → Vec3),
        (projectileFrame t' dirs'
          (projectileFrame 1200 (fun _ _ => ⟨1, 0, 0⟩) [wCluster]).1).2 = []) :=
  ⟨⟨rfl, rfl, rfl, rfl, by norm_num, by norm_num [CLUSTER_SPLIT_DELAY_MS]⟩,
   (cluster_splits_exactly_once 1200 100 (fun _ _ => ⟨1, 0, 0⟩) wCluster
      rfl rfl rfl rfl (by norm_num) (by norm_num [CLUSTER_SPLIT_DELAY_MS])).1,
   (cluster_splits_exactly_once 1200 100 (fun _ _ => ⟨1, 0, 0⟩) wCluster
      rfl rfl rfl rfl (by norm_num) (by norm_num [CLUSTER_SPLIT_DELAY_MS])).2.1,
   (cluster_splits_exactly_once 1200 100 (fun _ _ => ⟨1, 0, 0⟩) wCluster
      rfl rfl rfl rfl (by norm_num) (by norm_num [CLUSTER_SPLIT_DELAY_MS])).2.2.2⟩

/-! ### Claim C7: standard / heavy removal -/

/-- A launched standard projectile at rest on the ground: asleep, zero
velocity, well above the floor threshold. -/
def restingStandardProjectile : PhysicsObject :=
  { body := { position := ⟨0, 1/4, 0⟩, quaternion := Quat.identity,
              velocity := Vec3.zero, sleeping := true, shapeType := 1 }
    id := "p1", isKing := false, initialY := 5, isFallen := false
    projectileType := some ProjectileType.STANDARD
    lifeSpan := none, creationTime := none
    hasSplit := false, isSubmunition := false }

/-- The heavy variant of the same resting state. -/
def restingHeavyProjectile : PhysicsObject :=
  { restingStandardProjectile with
    id := "p2", projectileType := some ProjectileType.HEAVY }

/-- Counterexample to C7 as stated: a resting standard projectile — asleep,
velocity squared 0 < 0.01, y = 1/4 ≥ -10 — is NOT removed by the sweep, and
the frame returns it unchanged in the active list; likewise the heavy variant.
The removal guard requires !proj.projectileType || proj.isSubmunition, and a
launched STANDARD or HEAVY projectile has a truthy type tag and is not a
submunition. -/
theorem standard_heavy_resting_counterexample :
    restingStandardProjectile.projectileType = some ProjectileType.STANDARD ∧
    restingStandardProjectile.body.sleeping = true ∧
    restingStandardProjectile.body.velocity.lengthSquared < 0.01 ∧
    (-10 : ℚ) ≤ restingStandardProjectile.body.position.y ∧
    shouldRemove 99999 restingStandardProjectile = false ∧
    projectileFrame 99999 (fun _ _ => Vec3.zero) [restingStandardProjectile]
      = ([restingStandardProjectile], []) ∧
    restingHeavyProjectile.projectileType = some ProjectileType.HEAVY ∧
    restingHeavyProjectile.body.sleeping = true ∧
    shouldRemove 99999 restingHeavyProjectile = false := by
  refine ⟨rfl, rfl, ?_, ?_, ?_, ?_, rfl, rfl, ?_⟩
  · norm_num [restingStandardProjectile, Vec3.lengthSquared, Vec3.zero]
  · norm_num [restingStandardProjectile]
  · simp +decide only [shouldRemove, isExpired, numTruthy, restingStandardProjectile,
      Vec3.lengthSquared, Vec3.zero]
    norm_num
  · simp +decide only [projectileFrame, transitionAll, projectileTransition, isExpired,
      numTruthy, shouldRemove, restingStandardProjectile, Vec3.lengthSquared, Vec3.zero]
    norm_num
  · simp +decide only [shouldRemove, isExpired, numTruthy, restingHeavyProjectile,
      restingStandardProjectile, Vec3.lengthSquared, Vec3.zero]
    norm_num

/-- Claim C7 amended: a standard or heavy projectile is removed by the sweep
when y < -10; but resting (asleep with near-zero velocity) does NOT remove it:
as long as it is not below the floor (and, as launched, not split and not a
submunition), the sweep keeps it regardless of its sleep state, because the
resting guard fires only for projectiles with no type tag or for
submunitions. -/
theorem standard_heavy_removal (t : ℚ) (p : PhysicsObject)
    (hty : p.projectileType = some ProjectileType.STANDARD
        ∨ p.projectileType = some ProjectileType.HEAVY) :
    (p.body.position.y < -10 → shouldRemove t p = true) ∧
    (p.hasSplit = false → p.isSubmunition = false → -10 ≤ p.body.position.y →
        shouldRemove t p = false) := by
  constructor
  · intro hy
    unfold shouldRemove
    rw [if_pos hy]
  · intro hsplit hsub hy
    have hy' : ¬ (p.body.position.y < -10) := not_lt.mpr hy
    have hne : p.projectileType.isNone = false := by
      rcases hty with h | h <;> simp [h]
    unfold shouldRemove
    rw [if_neg hy']
    simp [hsplit, hsub, hne]

/-- Witness for the amended C7: the resting standard projectile is kept, and
a standard projectile fallen to y = -11 is removed. -/
theorem standard_heavy_removal_witness :
    (restingStandardProjectile.projectileType = some ProjectileType.STANDARD
      ∧ restingStandardProjectile.hasSplit = false
      ∧ restingStandardProjectile.isSubmunition = false
      ∧ (-10 : ℚ) ≤ restingStandardProjectile.body.position.y) ∧
    shouldRemove 99999 restingStandardProjectile = false ∧
    (({ restingStandardProjectile with
          body := { restingStandardProjectile.body with position := ⟨0, -11, 0⟩ } }
        : PhysicsObject).body.position.y < -10) ∧
    shouldRemove 99999
      { restingStandardProjectile with
          body := { restingStandardProjectile.body with position := ⟨0, -11, 0⟩ } }
      = true :=
  ⟨⟨rfl, rfl, rfl, by norm_num [restingStandardProjectile]⟩,
   (standard_heavy_removal 99999 restingStandardProjectile (Or.inl rfl)).2
     rfl rfl (by norm_num [restingStandardProjectile]),
   by norm_num,
   (standard_heavy_removal 99999
      { restingStandardProjectile with
          body := { restingStandardProjectile.body with position := ⟨0, -11, 0⟩ } }
      (Or.inl rfl)).1 (by norm_num)⟩

/-! ### Claim C8: submunitions are appended after the removal sweep -/

/-- Claim C8: every submunition spawned during a frame's sweep is a member of
that frame's resulting active list — the spawned list is appended only after
the removal filter has run, so no submunition is ever removed by the sweep of
the frame that spawned it (even one that already satisfies a removal
condition, e.g. spawned below the floor threshold). -/
theorem submunitions_survive_spawn_frame (t : ℚ) (dirs : Nat → Nat → Vec3)
    (projectiles : List PhysicsObject) (s : PhysicsObject)
    (hs : s ∈ (projectileFrame t dirs projectiles).2) :
    s ∈ (projectileFrame t dirs projectiles).1 := by
  simp only [projectileFrame] at hs ⊢
  exact List.mem_append_right _ hs

/-- A cluster projectile that expires while already below the floor threshold
(y = -20): its submunitions spawn below the floor too. -/
def wDeepCluster : PhysicsObject :=
  { wCluster with
    body := { wCluster.body with position := ⟨0, -20, 0⟩ } }

/-- Witness for C8: a submunition spawned at y = -20 satisfies the removal
condition of the very frame that spawned it, yet survives that frame because
spawns are appended after the removal filter. -/
theorem submunitions_survive_spawn_frame_witness :
    (mkSubmunition wDeepCluster 1200 ⟨1, 0, 0⟩ 0
        ∈ (projectileFrame 1200 (fun _ _ => ⟨1, 0, 0⟩) [wDeepCluster]).2) ∧
    shouldRemove 1200 (mkSubmunition wDeepCluster 1200 ⟨1, 0, 0⟩ 0) = true ∧
    (mkSubmunition wDeepCluster 1200 ⟨1, 0, 0⟩ 0
        ∈ (projectileFrame 1200 (fun _ _ => ⟨1, 0, 0⟩) [wDeepCluster]).1) := by
  have hmem : mkSubmunition wDeepCluster 1200 ⟨1, 0, 0⟩ 0
      ∈ (projectileFrame 1200 (fun _ _ => ⟨1, 0, 0⟩) [wDeepCluster]).2 := by
    simp +decide only [projectileFrame, transitionAll, projectileTransition, isExpired,
      numTruthy, wDeepCluster, wCluster, CLUSTER_SPLIT_DELAY_MS, SUBMUNITION_COUNT]
    norm_num [List.range_succ]
  refine ⟨hmem, ?_,
    submunitions_survive_spawn_frame 1200 (fun _ _ => ⟨1, 0, 0⟩) [wDeepCluster] _ hmem⟩
  norm_num [shouldRemove, mkSubmunition, wDeepCluster, wCluster]

end CastleBreaker
